import Mathlib

/-!
Shallow embedding of the two drawing applications of this repository:
`src/grid_maker.py` (8 × 8 grid, unlabeled samples) and
`src/symbols_maker.py` (5 × 5 grid, samples with a trailing shape label).

The Grid State is a total function on cell coordinates; pointer events carry
integer pixel coordinates (Python `//` floor division is `Int.fdiv`).
File dialogs and file writes are modelled by explicit parameters:
`fname : String` is the result of `asksaveasfilename` (empty string = the
user cancelled, matching Python falsiness of `""`), and `writeOk : Bool`
says whether `np.savetxt` / `img.save` succeeds or raises.
-/

/-- Outcome of a save-style command: a validation warning, a cancelled file
dialog, a successful write of the given rows, or a failed write. -/
inductive SaveOutcome (α : Type) where
  | warned
  | cancelled
  | saved (rows : List (List α))
  | failed
deriving DecidableEq

/-- A single-channel raster image: its pixel dimensions and a pixel map
(row index, column index ↦ 8-bit gray value). -/
structure Image where
  height : Nat
  width : Nat
  pix : Nat → Nat → Nat

/-- The comma delimiter passed to `np.savetxt(..., delimiter=",")`. -/
def commaStr : String := ","

/-- One CSV line as written by `np.savetxt(fname, mat, fmt="%d", delimiter=",")`:
the row's integer values in decimal, comma-separated. -/
def renderRow {α : Type} [ToString α] (row : List α) : String :=
  String.intercalate commaStr (row.map toString)

/-- The lines of the CSV file: one rendered line per row, in row order. -/
def csvLines {α : Type} [ToString α] (rows : List (List α)) : List String :=
  rows.map renderRow

namespace GridMaker

/-- Constant `CELL_SIZE = 50` from `grid_maker.py`. -/
def CELL_SIZE : Nat := 50

/-- Constant `GRID_SIZE = 8` from `grid_maker.py`. -/
def GRID_SIZE : Nat := 8

/-- Models `self.state`: the 8 × 8 uint8 matrix (row, col ↦ cell value). -/
def State : Type := Fin 8 → Fin 8 → Nat

/-- The documented invariant of `self.state`: cells hold 0 or 1. -/
def Inv (s : State) : Prop := ∀ r c, s r c = 0 ∨ s r c = 1

instance : DecidablePred Inv := fun s =>
  inferInstanceAs (Decidable (∀ r c, s r c = 0 ∨ s r c = 1))

/-- Write value `v` into cell `(r, c)`, as `self.state[r, c] = v`. -/
def update (s : State) (r c : Fin 8) (v : Nat) : State :=
  fun p q => if p = r ∧ q = c then v else s p q

/-- Models `np.zeros((GRID_SIZE, GRID_SIZE))`: the all-zero grid. -/
def zeroState : State := fun _ _ => 0

/-- Models `self.state.flatten()`: row-major flattening, index `i ↦ state[i // 8, i % 8]`. -/
def flatten (s : State) : List Nat :=
  List.ofFn (fun i : Fin 64 =>
    s ⟨i.val / 8, by have := i.isLt; omega⟩ ⟨i.val % 8, by omega⟩)

/-- numpy `.any()`: true when some entry is nonzero. -/
def stateAny (s : State) : Bool := (flatten s).any (fun v => v != 0)

/-- Models `_coords_to_cell`: floor-divide pixel coordinates by `CELL_SIZE`, return
the cell when both indices lie in `[0, GRID_SIZE)`, else `None`. -/
def coords_to_cell (x y : Int) : Option (Fin 8 × Fin 8) :=
  let col := x.fdiv 50
  let row := y.fdiv 50
  if h : 0 ≤ row ∧ row < 8 ∧ 0 ≤ col ∧ col < 8 then
    some (⟨row.toNat, by omega⟩, ⟨col.toNat, by omega⟩)
  else
    none

/-- Models `_toggle_cell`: on left click, `self.state[r, c] ^= 1` for the addressed
in-bounds cell; out-of-bounds events are ignored. -/
def toggle_cell (s : State) (x y : Int) : State :=
  match coords_to_cell x y with
  | some (r, c) => update s r c ((s r c) ^^^ 1)
  | none => s

/-- Models `_paint_motion`: on left drag, `if not self.state[r, c]: self.state[r, c] = 1`. -/
def paint_motion (s : State) (x y : Int) : State :=
  match coords_to_cell x y with
  | some (r, c) => if s r c = 0 then update s r c 1 else s
  | none => s

/-- Models `_erase_cell`: on right click, `if self.state[r, c]: self.state[r, c] = 0`. -/
def erase_cell (s : State) (x y : Int) : State :=
  match coords_to_cell x y with
  | some (r, c) => if s r c = 0 then s else update s r c 0
  | none => s

/-- Models `_erase_motion`, which just calls `_erase_cell`. -/
def erase_motion (s : State) (x y : Int) : State := erase_cell s x y

/-- The in-memory application state: `self.state` and `self.samples`. -/
structure AppState where
  state : State
  samples : List (List Nat)

/-- Models `_reset`: `self.state.fill(0)`; the sample list is untouched. -/
def reset (a : AppState) : AppState := { a with state := zeroState }

/-- Models `_next`: flatten the current drawing; if it has any nonzero entry, append
it to `self.samples` and reset the canvas (second component `false` = info
message); otherwise warn and change nothing (second component `true` = the
"Vacío" warning). -/
def next (a : AppState) : AppState × Bool :=
  let flat := flatten a.state
  if flat.any (fun v => v != 0) then
    (reset { a with samples := a.samples ++ [flat] }, false)
  else
    (a, true)

/-- The implicit-commit step of `_save_all`:
`if self.state.any(): self.samples.append(self.state.flatten().copy())`. -/
def committed (a : AppState) : AppState :=
  if stateAny a.state then { a with samples := a.samples ++ [flatten a.state] } else a

/-- Models `_save_all`: warn when there are no samples and the grid is empty;
otherwise implicitly commit a non-empty grid, show the save dialog
(`fname = ""` means cancelled), and on a successful `np.savetxt` clear
`self.samples`; a raised exception is caught and reported, clearing nothing. -/
def save_all (a : AppState) (fname : String) (writeOk : Bool) :
    AppState × SaveOutcome Nat :=
  if a.samples.isEmpty && !(stateAny a.state) then
    (a, SaveOutcome.warned)
  else
    let a1 : AppState := committed a
    if fname.isEmpty then
      (a1, SaveOutcome.cancelled)
    else if writeOk then
      ({ a1 with samples := [] }, SaveOutcome.saved a1.samples)
    else
      (a1, SaveOutcome.failed)

/-- Total cell read used by the image map (always in bounds when used). -/
def getCell (s : State) (r c : Nat) : Nat :=
  if h : r < 8 ∧ c < 8 then s ⟨r, h.1⟩ ⟨c, h.2⟩ else 0

/-- One pixel of `255 * (1 - self.state).astype(np.uint8)`: uint8 arithmetic,
so both the subtraction and the product wrap modulo 256. -/
def pngPixel (v : Nat) : Nat :=
  Int.toNat ((255 * ((1 - (v : Int)).emod 256)).emod 256)

/-- The raster built by `_save_png_current`:
`Image.fromarray(255 * (1 - self.state).astype(np.uint8))` — an 8 × 8 image,
one pixel per cell, with no resize. -/
def pngImage (s : State) : Image :=
  { height := 8
    width := 8
    pix := fun r c => pngPixel (getCell s r c) }

end GridMaker

namespace SymbolsMaker

/-- Constant `CELL_SIZE = 50` from `symbols_maker.py`. -/
def CELL_SIZE : Nat := 50

/-- Constant `GRID_SIZE = 5` from `symbols_maker.py`. -/
def GRID_SIZE : Nat := 5

/-- Models `self.state`: the 5 × 5 int matrix (row, col ↦ cell value). -/
def State : Type := Fin 5 → Fin 5 → Int

/-- The documented invariant of `self.state`: cells hold 0 or 1. -/
def Inv (s : State) : Prop := ∀ r c, s r c = 0 ∨ s r c = 1

instance : DecidablePred Inv := fun s =>
  inferInstanceAs (Decidable (∀ r c, s r c = 0 ∨ s r c = 1))

/-- Write value `v` into cell `(r, c)`, as `self.state[r, c] = v`. -/
def update (s : State) (r c : Fin 5) (v : Int) : State :=
  fun p q => if p = r ∧ q = c then v else s p q

/-- Models `np.zeros((GRID_SIZE, GRID_SIZE))`: the all-zero grid. -/
def zeroState : State := fun _ _ => 0

/-- Models `self.state.flatten().tolist()`: row-major flattening,
index `i ↦ state[i // 5, i % 5]`. -/
def flatten (s : State) : List Int :=
  List.ofFn (fun i : Fin 25 =>
    s ⟨i.val / 5, by have := i.isLt; omega⟩ ⟨i.val % 5, by omega⟩)

/-- numpy `.any()`: true when some entry is nonzero. -/
def stateAny (s : State) : Bool := (flatten s).any (fun v => v != 0)

/-- Models `_coords_to_cell`: floor-divide pixel coordinates by `CELL_SIZE`, return
the cell when both indices lie in `[0, GRID_SIZE)`, else `None`. -/
def coords_to_cell (x y : Int) : Option (Fin 5 × Fin 5) :=
  let col := x.fdiv 50
  let row := y.fdiv 50
  if h : 0 ≤ row ∧ row < 5 ∧ 0 ≤ col ∧ col < 5 then
    some (⟨row.toNat, by omega⟩, ⟨col.toNat, by omega⟩)
  else
    none

/-- Models `_toggle_cell`: on left click, `self.state[r, c] = 1 - self.state[r, c]`
for the addressed in-bounds cell; out-of-bounds events are ignored. -/
def toggle_cell (s : State) (x y : Int) : State :=
  match coords_to_cell x y with
  | some (r, c) => update s r c (1 - s r c)
  | none => s

/-- Models `_paint_motion`: on left drag, `self.state[r, c] = 1` unconditionally. -/
def paint_motion (s : State) (x y : Int) : State :=
  match coords_to_cell x y with
  | some (r, c) => update s r c 1
  | none => s

/-- Models `_erase_cell`: on right click, `self.state[r, c] = 0` unconditionally. -/
def erase_cell (s : State) (x y : Int) : State :=
  match coords_to_cell x y with
  | some (r, c) => update s r c 0
  | none => s

/-- Models `_erase_motion`: same body as `_erase_cell` (`self.state[r, c] = 0`). -/
def erase_motion (s : State) (x y : Int) : State :=
  match coords_to_cell x y with
  | some (r, c) => update s r c 0
  | none => s

/-- In-memory application state: `self.state`, `self.shape_var`, `self.samples`. -/
structure AppState where
  state : State
  label : Int
  samples : List (List Int)

/-- The labeled sample vector built in `_next` and `_save_all`:
`vec = self.state.flatten().tolist(); vec.append(self.shape_var.get())`. -/
def flattenL (a : AppState) : List Int := flatten a.state ++ [a.label]

/-- Models `_reset`: `self.state.fill(0); self.shape_var.set(0)`. -/
def reset (a : AppState) : AppState := { a with state := zeroState, label := 0 }

/-- Models `_next`: warn and change nothing when the grid is all-zero (second
component `true`); otherwise append the labeled vector to `self.samples`
and reset grid and label (second component `false`). -/
def next (a : AppState) : AppState × Bool :=
  if !(stateAny a.state) then
    (a, true)
  else
    (reset { a with samples := a.samples ++ [flattenL a] }, false)

/-- The implicit-commit step of `_save_all`: append the labeled vector when
`self.state.any()`. -/
def committed (a : AppState) : AppState :=
  if stateAny a.state then { a with samples := a.samples ++ [flattenL a] } else a

/-- Models `_save_all`: implicitly commit a non-empty grid, warn when the sample
list is then empty, otherwise show the save dialog (`fname = ""` means
cancelled) and write with `np.savetxt`; the write is not guarded by
try/except, and nothing is cleared afterwards. -/
def save_all (a : AppState) (fname : String) (writeOk : Bool) :
    AppState × SaveOutcome Int :=
  let a1 : AppState := committed a
  if a1.samples.isEmpty then
    (a1, SaveOutcome.warned)
  else if fname.isEmpty then
    (a1, SaveOutcome.cancelled)
  else if writeOk then
    (a1, SaveOutcome.saved a1.samples)
  else
    (a1, SaveOutcome.failed)

/-- Total cell read used by the image map (always in bounds when used). -/
def getCell (s : State) (r c : Nat) : Int :=
  if h : r < 5 ∧ c < 5 then s ⟨r, h.1⟩ ⟨c, h.2⟩ else 0

/-- The raster built by `_save_png_current`:
`Image.fromarray((self.state * 255).astype('uint8'))` resized to
`(GRID_SIZE * CELL_SIZE, GRID_SIZE * CELL_SIZE)` with `Image.NEAREST`, so
output pixel `(y, x)` samples cell `(y // 50, x // 50)`; uint8 wraps mod 256. -/
def pngImage (s : State) : Image :=
  { height := 5 * 50
    width := 5 * 50
    pix := fun y x => Int.toNat (((getCell s (y / 50) (x / 50)) * 255).emod 256) }

/-- Models `_save_png_current`: warn on an all-zero grid and produce no image;
otherwise build the raster (before the save dialog is shown). -/
def save_png_current (s : State) : Option Image :=
  if stateAny s then some (pngImage s) else none

end SymbolsMaker

/-- Example grid for the 8 × 8 variant: only cell (0, 0) is set. -/
def gmExState : GridMaker.State := fun r c => if r.val = 0 ∧ c.val = 0 then 1 else 0

/-- Example application state for the 8 × 8 variant: one drawn cell, no samples. -/
def gmExApp : GridMaker.AppState := { state := gmExState, samples := [] }

/-- Example grid for the 5 × 5 variant: only cell (4, 4) is set. -/
def smExState : SymbolsMaker.State := fun r c => if r.val = 4 ∧ c.val = 4 then 1 else 0

/-- Example application state for the 5 × 5 variant: one drawn cell, label 1,
no samples. -/
def smExApp : SymbolsMaker.AppState := { state := smExState, label := 1, samples := [] }

/-- An example non-empty file name chosen in the save dialog. -/
def fnameEx : String := "out.csv"

/-- The empty file name returned by a cancelled save dialog. -/
def fnameCancelled : String := ""

/-- Example 8 × 8 application state with an all-zero grid and no samples. -/
def gmEmptyApp : GridMaker.AppState := { state := GridMaker.zeroState, samples := [] }

/-- Example 5 × 5 application state with an all-zero grid and no samples. -/
def smEmptyApp : SymbolsMaker.AppState :=
  { state := SymbolsMaker.zeroState, label := 0, samples := [] }

namespace GridMaker

theorem update_at (s : State) (r c : Fin 8) (v : Nat) : update s r c v r c = v := by
  simp [update]

theorem update_self (s : State) (r c : Fin 8) : update s r c (s r c) = s := by
  funext p q
  by_cases h : p = r ∧ q = c
  · obtain ⟨h1, h2⟩ := h
    subst h1; subst h2
    simp [update]
  · simp [update, h]

theorem update_update (s : State) (r c : Fin 8) (v w : Nat) :
    update (update s r c v) r c w = update s r c w := by
  funext p q
  by_cases h : p = r ∧ q = c <;> simp [update, h]

theorem flatten_length (s : State) : (flatten s).length = 64 := by
  simp [flatten]

theorem toggle_toggle (s : State) (x y : Int) :
    toggle_cell (toggle_cell s x y) x y = s := by
  unfold toggle_cell
  cases h : coords_to_cell x y with
  | none => rfl
  | some rc =>
    obtain ⟨r, c⟩ := rc
    dsimp only
    rw [update_at, Nat.xor_cancel_right, update_update, update_self]

theorem committed_state (a : AppState) : (committed a).state = a.state := by
  unfold committed
  by_cases h : stateAny a.state <;> simp [h]

theorem committed_samples (a : AppState) :
    (committed a).samples =
      a.samples ++ (if stateAny a.state then [flatten a.state] else []) := by
  unfold committed
  by_cases h : stateAny a.state <;> simp [h]

theorem committed_of_empty (a : AppState) (h : stateAny a.state = false) :
    committed a = a := by
  unfold committed
  simp [h]

theorem committed_of_nonempty (a : AppState) (h : stateAny a.state = true) :
    committed a = { a with samples := a.samples ++ [flatten a.state] } := by
  unfold committed
  simp [h]

theorem save_all_warned (a : AppState) (fname : String) (writeOk : Bool)
    (hw : (a.samples.isEmpty && !(stateAny a.state)) = true) :
    save_all a fname writeOk = (a, SaveOutcome.warned) := by
  unfold save_all
  simp [hw]

theorem save_all_cancelled (a : AppState) (fname : String) (writeOk : Bool)
    (hw : (a.samples.isEmpty && !(stateAny a.state)) = false)
    (hf : fname.isEmpty = true) :
    save_all a fname writeOk = (committed a, SaveOutcome.cancelled) := by
  unfold save_all
  simp [hw, hf]

theorem save_all_success (a : AppState) (fname : String)
    (hw : (a.samples.isEmpty && !(stateAny a.state)) = false)
    (hf : fname.isEmpty = false) :
    save_all a fname true =
      ({ state := a.state, samples := [] },
       SaveOutcome.saved (committed a).samples) := by
  unfold save_all
  simp [hw, hf]
  rw [← committed_state a]

theorem save_all_failed (a : AppState) (fname : String)
    (hw : (a.samples.isEmpty && !(stateAny a.state)) = false)
    (hf : fname.isEmpty = false) :
    save_all a fname false = (committed a, SaveOutcome.failed) := by
  unfold save_all
  simp [hw, hf]

theorem getCell_fin (s : State) (r c : Fin 8) : getCell s r.val c.val = s r c := by
  unfold getCell
  rw [dif_pos ⟨r.isLt, c.isLt⟩]

theorem pngImage_spec (s : State) (hInv : Inv s) :
    (pngImage s).height = 8 ∧ (pngImage s).width = 8 ∧
    ∀ r c : Fin 8, (pngImage s).pix r.val c.val = if s r c = 1 then 0 else 255 := by
  refine ⟨rfl, rfl, fun r c => ?_⟩
  show pngPixel (getCell s r.val c.val) = _
  rw [getCell_fin s r c]
  rcases hInv r c with h | h <;> rw [h] <;> decide

theorem paint_mono (s : State) (x y : Int) :
    ∀ p q, s p q ≤ paint_motion s x y p q := by
  intro p q
  unfold paint_motion
  cases h : coords_to_cell x y with
  | none => exact le_refl _
  | some rc =>
    obtain ⟨r, c⟩ := rc
    dsimp only
    by_cases h0 : s r c = 0
    · rw [if_pos h0]
      unfold update
      by_cases hpq : p = r ∧ q = c
      · obtain ⟨h1, h2⟩ := hpq
        subst h1; subst h2
        simp [h0]
      · simp [hpq]
    · rw [if_neg h0]

theorem paint_forces (s : State) (x y : Int) (r c : Fin 8) (hInv : Inv s)
    (h : coords_to_cell x y = some (r, c)) :
    paint_motion s x y r c = 1 ∧
    ∀ p q, ¬(p = r ∧ q = c) → paint_motion s x y p q = s p q := by
  unfold paint_motion
  rw [h]
  dsimp only
  by_cases h0 : s r c = 0
  · rw [if_pos h0]
    exact ⟨update_at s r c 1, fun p q hpq => by simp [update, hpq]⟩
  · rw [if_neg h0]
    rcases hInv r c with h1 | h1
    · exact absurd h1 h0
    · exact ⟨h1, fun p q hpq => rfl⟩

theorem paint_idem (s : State) (x y : Int) :
    paint_motion (paint_motion s x y) x y = paint_motion s x y := by
  unfold paint_motion
  cases h : coords_to_cell x y with
  | none => rfl
  | some rc =>
    obtain ⟨r, c⟩ := rc
    dsimp only
    by_cases h0 : s r c = 0
    · rw [if_pos h0, update_at]
      simp
    · rw [if_neg h0, if_neg h0]

theorem erase_antitone (s : State) (x y : Int) :
    ∀ p q, erase_cell s x y p q ≤ s p q := by
  intro p q
  unfold erase_cell
  cases h : coords_to_cell x y with
  | none => exact le_refl _
  | some rc =>
    obtain ⟨r, c⟩ := rc
    dsimp only
    by_cases h0 : s r c = 0
    · rw [if_pos h0]
    · rw [if_neg h0]
      unfold update
      by_cases hpq : p = r ∧ q = c
      · simp [hpq]
      · simp [hpq]

theorem erase_forces (s : State) (x y : Int) (r c : Fin 8)
    (h : coords_to_cell x y = some (r, c)) :
    erase_cell s x y r c = 0 ∧
    ∀ p q, ¬(p = r ∧ q = c) → erase_cell s x y p q = s p q := by
  unfold erase_cell
  rw [h]
  dsimp only
  by_cases h0 : s r c = 0
  · rw [if_pos h0]
    exact ⟨h0, fun p q hpq => rfl⟩
  · rw [if_neg h0]
    exact ⟨update_at s r c 0, fun p q hpq => by simp [update, hpq]⟩

theorem erase_idem (s : State) (x y : Int) :
    erase_cell (erase_cell s x y) x y = erase_cell s x y := by
  unfold erase_cell
  cases h : coords_to_cell x y with
  | none => rfl
  | some rc =>
    obtain ⟨r, c⟩ := rc
    dsimp only
    by_cases h0 : s r c = 0
    · rw [if_pos h0, if_pos h0]
    · rw [if_neg h0, update_at]
      simp

theorem erase_motion_eq (s : State) (x y : Int) :
    erase_motion s x y = erase_cell s x y := rfl

theorem coords_none (x y : Int)
    (h : y.fdiv 50 < 0 ∨ 8 ≤ y.fdiv 50 ∨ x.fdiv 50 < 0 ∨ 8 ≤ x.fdiv 50) :
    coords_to_cell x y = none := by
  have hc : ¬(0 ≤ y.fdiv 50 ∧ y.fdiv 50 < 8 ∧ 0 ≤ x.fdiv 50 ∧ x.fdiv 50 < 8) := by omega
  simp [coords_to_cell, hc]

theorem handlers_noop (s : State) (x y : Int) (h : coords_to_cell x y = none) :
    toggle_cell s x y = s ∧ paint_motion s x y = s ∧
    erase_cell s x y = s ∧ erase_motion s x y = s := by
  simp [toggle_cell, paint_motion, erase_cell, erase_motion, h]

theorem next_empty (a : AppState) (h : stateAny a.state = false) : next a = (a, true) := by
  unfold next
  rw [stateAny] at h
  simp [h]

theorem next_nonempty (a : AppState) (h : stateAny a.state = true) :
    next a = ({ state := zeroState, samples := a.samples ++ [flatten a.state] }, false) := by
  unfold next reset
  rw [stateAny] at h
  simp [h]

theorem flatten_get (s : State) (r c : Fin 8)
    (h : r.val * 8 + c.val < (flatten s).length) :
    (flatten s).get ⟨r.val * 8 + c.val, h⟩ = s r c := by
  have hr := r.isLt
  have hc := c.isLt
  have e1 : (r.val * 8 + c.val) / 8 = r.val := by omega
  have e2 : (r.val * 8 + c.val) % 8 = c.val := by omega
  unfold flatten
  rw [List.get_ofFn]
  simp only [Fin.cast_mk]
  simp only [e1, e2]

end GridMaker

namespace SymbolsMaker

theorem update_at5 (s : State) (r c : Fin 5) (v : Int) : update s r c v r c = v := by
  simp [update]

theorem update_self5 (s : State) (r c : Fin 5) : update s r c (s r c) = s := by
  funext p q
  by_cases h : p = r ∧ q = c
  · obtain ⟨h1, h2⟩ := h
    subst h1; subst h2
    simp [update]
  · simp [update, h]

theorem update_update5 (s : State) (r c : Fin 5) (v w : Int) :
    update (update s r c v) r c w = update s r c w := by
  funext p q
  by_cases h : p = r ∧ q = c <;> simp [update, h]

theorem flatten_length5 (s : State) : (flatten s).length = 25 := by
  simp [flatten]

theorem toggle_toggle5 (s : State) (x y : Int) :
    toggle_cell (toggle_cell s x y) x y = s := by
  unfold toggle_cell
  cases h : coords_to_cell x y with
  | none => rfl
  | some rc =>
    obtain ⟨r, c⟩ := rc
    dsimp only
    rw [update_at5]
    have h1 : (1 : Int) - (1 - s r c) = s r c := by ring
    rw [h1, update_update5, update_self5]

theorem flattenL_length (a : AppState) : (flattenL a).length = 26 := by
  simp [flattenL, flatten_length5]

theorem getCell_mem (s : State) (hInv : Inv s) (r c : Nat) (hr : r < 5) (hc : c < 5) :
    getCell s r c = 0 ∨ getCell s r c = 1 := by
  unfold getCell
  rw [dif_pos ⟨hr, hc⟩]
  exact hInv _ _

theorem pngImage_spec5 (t : State) (hInv : Inv t) :
    (pngImage t).height = 5 * 50 ∧ (pngImage t).width = 5 * 50 ∧
    ∀ y x : Nat, y < 250 → x < 250 →
      (pngImage t).pix y x = if getCell t (y / 50) (x / 50) = 1 then 255 else 0 := by
  refine ⟨rfl, rfl, fun y x hy hx => ?_⟩
  show Int.toNat (((getCell t (y / 50) (x / 50)) * 255).emod 256) = _
  rcases getCell_mem t hInv (y / 50) (x / 50) (by omega) (by omega) with h | h <;>
    rw [h] <;> decide

theorem save_png_nonempty (t : State) (h : stateAny t = true) :
    save_png_current t = some (pngImage t) := by
  simp [save_png_current, h]

theorem paint_mono5 (s : State) (x y : Int) (hInv : Inv s) :
    ∀ p q, s p q ≤ paint_motion s x y p q := by
  intro p q
  unfold paint_motion
  cases h : coords_to_cell x y with
  | none => exact le_refl _
  | some rc =>
    obtain ⟨r, c⟩ := rc
    dsimp only
    unfold update
    by_cases hpq : p = r ∧ q = c
    · rw [if_pos hpq]
      rcases hInv p q with h1 | h1 <;> simp [h1]
    · rw [if_neg hpq]

theorem paint_forces5 (s : State) (x y : Int) (r c : Fin 5)
    (h : coords_to_cell x y = some (r, c)) :
    paint_motion s x y r c = 1 ∧
    ∀ p q, ¬(p = r ∧ q = c) → paint_motion s x y p q = s p q := by
  unfold paint_motion
  rw [h]
  exact ⟨update_at5 s r c 1, fun p q hpq => by simp [update, hpq]⟩

theorem paint_idem5 (s : State) (x y : Int) :
    paint_motion (paint_motion s x y) x y = paint_motion s x y := by
  unfold paint_motion
  cases h : coords_to_cell x y with
  | none => rfl
  | some rc =>
    obtain ⟨r, c⟩ := rc
    dsimp only
    exact update_update5 s r c 1 1

theorem erase_antitone5 (s : State) (x y : Int) (hInv : Inv s) :
    ∀ p q, erase_cell s x y p q ≤ s p q := by
  intro p q
  unfold erase_cell
  cases h : coords_to_cell x y with
  | none => exact le_refl _
  | some rc =>
    obtain ⟨r, c⟩ := rc
    dsimp only
    unfold update
    by_cases hpq : p = r ∧ q = c
    · rw [if_pos hpq]
      rcases hInv p q with h1 | h1 <;> simp [h1]
    · rw [if_neg hpq]

theorem erase_forces5 (s : State) (x y : Int) (r c : Fin 5)
    (h : coords_to_cell x y = some (r, c)) :
    erase_cell s x y r c = 0 ∧
    ∀ p q, ¬(p = r ∧ q = c) → erase_cell s x y p q = s p q := by
  unfold erase_cell
  rw [h]
  exact ⟨update_at5 s r c 0, fun p q hpq => by simp [update, hpq]⟩

theorem erase_idem5 (s : State) (x y : Int) :
    erase_cell (erase_cell s x y) x y = erase_cell s x y := by
  unfold erase_cell
  cases h : coords_to_cell x y with
  | none => rfl
  | some rc =>
    obtain ⟨r, c⟩ := rc
    dsimp only
    exact update_update5 s r c 0 0

theorem erase_motion_eq5 (s : State) (x y : Int) :
    erase_motion s x y = erase_cell s x y := rfl

theorem coords_none5 (x y : Int)
    (h : y.fdiv 50 < 0 ∨ 5 ≤ y.fdiv 50 ∨ x.fdiv 50 < 0 ∨ 5 ≤ x.fdiv 50) :
    coords_to_cell x y = none := by
  have hc : ¬(0 ≤ y.fdiv 50 ∧ y.fdiv 50 < 5 ∧ 0 ≤ x.fdiv 50 ∧ x.fdiv 50 < 5) := by omega
  simp [coords_to_cell, hc]

theorem handlers_noop5 (s : State) (x y : Int) (h : coords_to_cell x y = none) :
    toggle_cell s x y = s ∧ paint_motion s x y = s ∧
    erase_cell s x y = s ∧ erase_motion s x y = s := by
  simp [toggle_cell, paint_motion, erase_cell, erase_motion, h]

theorem committed_state5 (a : AppState) : (committed a).state = a.state := by
  unfold committed
  by_cases h : stateAny a.state <;> simp [h]

theorem committed_label (a : AppState) : (committed a).label = a.label := by
  unfold committed
  by_cases h : stateAny a.state <;> simp [h]

theorem committed_samples5 (a : AppState) :
    (committed a).samples =
      a.samples ++ (if stateAny a.state then [flattenL a] else []) := by
  unfold committed
  by_cases h : stateAny a.state <;> simp [h]

theorem committed_of_empty5 (a : AppState) (h : stateAny a.state = false) :
    committed a = a := by
  unfold committed
  simp [h]

theorem committed_of_nonempty5 (a : AppState) (h : stateAny a.state = true) :
    committed a = { a with samples := a.samples ++ [flattenL a] } := by
  unfold committed
  simp [h]

theorem save_all_warned5 (a : AppState) (fname : String) (writeOk : Bool)
    (hw : (committed a).samples.isEmpty = true) :
    save_all a fname writeOk = (committed a, SaveOutcome.warned) := by
  unfold save_all
  simp [hw]

theorem save_all_cancelled5 (a : AppState) (fname : String) (writeOk : Bool)
    (hw : (committed a).samples.isEmpty = false)
    (hf : fname.isEmpty = true) :
    save_all a fname writeOk = (committed a, SaveOutcome.cancelled) := by
  unfold save_all
  simp [hw, hf]

theorem save_all_success5 (a : AppState) (fname : String)
    (hw : (committed a).samples.isEmpty = false)
    (hf : fname.isEmpty = false) :
    save_all a fname true = (committed a, SaveOutcome.saved (committed a).samples) := by
  unfold save_all
  simp [hw, hf]

theorem save_all_failed5 (a : AppState) (fname : String)
    (hw : (committed a).samples.isEmpty = false)
    (hf : fname.isEmpty = false) :
    save_all a fname false = (committed a, SaveOutcome.failed) := by
  unfold save_all
  simp [hw, hf]

theorem next_empty5 (a : AppState) (h : stateAny a.state = false) : next a = (a, true) := by
  unfold next
  simp [h]

theorem next_nonempty5 (a : AppState) (h : stateAny a.state = true) :
    next a = ({ state := zeroState, label := 0,
                samples := a.samples ++ [flattenL a] }, false) := by
  unfold next reset
  simp [h]

theorem flatten_get5 (s : State) (r c : Fin 5)
    (h : r.val * 5 + c.val < (flatten s).length) :
    (flatten s).get ⟨r.val * 5 + c.val, h⟩ = s r c := by
  have hr := r.isLt
  have hc := c.isLt
  have e1 : (r.val * 5 + c.val) / 5 = r.val := by omega
  have e2 : (r.val * 5 + c.val) % 5 = c.val := by omega
  unfold flatten
  rw [List.get_ofFn]
  simp only [Fin.cast_mk]
  simp only [e1, e2]

end SymbolsMaker

theorem csvLines_length {α : Type} [ToString α] (rows : List (List α)) :
    (csvLines rows).length = rows.length := by
  simp [csvLines]

/-- Claim C7: for every grid state and every in-bounds cell, applying the
primary-button click (toggle) twice consecutively to the same cell, with no
other mutation in between, returns the whole grid to its pre-toggle value
(out-of-bounds events are no-ops, so the identity holds for every pointer
event in both variants). -/
theorem claim_C7_toggle_involutive :
    ∀ (s : GridMaker.State) (x y : Int) (t : SymbolsMaker.State) (x2 y2 : Int),
      GridMaker.toggle_cell (GridMaker.toggle_cell s x y) x y = s ∧
      SymbolsMaker.toggle_cell (SymbolsMaker.toggle_cell t x2 y2) x2 y2 = t :=
  fun s x y t x2 y2 => ⟨GridMaker.toggle_toggle s x y, SymbolsMaker.toggle_toggle5 t x2 y2⟩

/-- Claim C5: in both variants the flattening used by commit and export is
row-major — the value of cell (row r, col c) sits at vector index r·N + c. -/
theorem claim_C5_row_major :
    ∀ (s : GridMaker.State) (r c : Fin 8)
      (h : r.val * 8 + c.val < (GridMaker.flatten s).length)
      (t : SymbolsMaker.State) (r2 c2 : Fin 5)
      (h2 : r2.val * 5 + c2.val < (SymbolsMaker.flatten t).length),
      (GridMaker.flatten s).get ⟨r.val * 8 + c.val, h⟩ = s r c ∧
      (SymbolsMaker.flatten t).get ⟨r2.val * 5 + c2.val, h2⟩ = t r2 c2 :=
  fun s r c h t r2 c2 h2 =>
    ⟨GridMaker.flatten_get s r c h, SymbolsMaker.flatten_get5 t r2 c2 h2⟩

/-- Witness for C5 at concrete inputs: cell (0, 1) of the example 8 × 8 grid
and cell (4, 4) of the example 5 × 5 grid. -/
theorem claim_C5_row_major_witness :
    (GridMaker.flatten gmExState).get ⟨(0 : Fin 8).val * 8 + (1 : Fin 8).val, by decide⟩ =
      gmExState 0 1 ∧
    (SymbolsMaker.flatten smExState).get ⟨(4 : Fin 5).val * 5 + (4 : Fin 5).val, by decide⟩ =
      smExState 4 4 :=
  claim_C5_row_major gmExState 0 1 (by decide) smExState 4 4 (by decide)

/-- Claim C1: in both variants, commit ("Next") warns and leaves the grid,
label and sample store unchanged iff the grid is entirely zero; otherwise it
appends exactly one sample — the row-major flattening of the grid, of length
N² (N²+1 with the label in the labeled variant) — and resets the grid (and
label) to all-zero defaults. -/
theorem claim_C1_commit :
    ∀ (a : GridMaker.AppState) (b : SymbolsMaker.AppState),
      (GridMaker.stateAny a.state = false → GridMaker.next a = (a, true)) ∧
      (GridMaker.stateAny a.state = true →
        GridMaker.next a =
          ({ state := GridMaker.zeroState,
             samples := a.samples ++ [GridMaker.flatten a.state] }, false) ∧
        (GridMaker.flatten a.state).length = 64) ∧
      (SymbolsMaker.stateAny b.state = false → SymbolsMaker.next b = (b, true)) ∧
      (SymbolsMaker.stateAny b.state = true →
        SymbolsMaker.next b =
          ({ state := SymbolsMaker.zeroState, label := 0,
             samples := b.samples ++ [SymbolsMaker.flattenL b] }, false) ∧
        (SymbolsMaker.flattenL b).length = 26) :=
  fun a b =>
    ⟨fun h => GridMaker.next_empty a h,
     fun h => ⟨GridMaker.next_nonempty a h, GridMaker.flatten_length a.state⟩,
     fun h => SymbolsMaker.next_empty5 b h,
     fun h => ⟨SymbolsMaker.next_nonempty5 b h, SymbolsMaker.flattenL_length b⟩⟩

/-- Witness for C1: the example one-cell 8 × 8 drawing commits to one sample
of length 64 and a cleared grid; the all-zero 5 × 5 state only warns. -/
theorem claim_C1_commit_witness :
    GridMaker.next gmExApp =
      ({ state := GridMaker.zeroState,
         samples := gmExApp.samples ++ [GridMaker.flatten gmExApp.state] }, false) ∧
    (GridMaker.flatten gmExApp.state).length = 64 ∧
    SymbolsMaker.next smEmptyApp = (smEmptyApp, true) :=
  ⟨((claim_C1_commit gmExApp smEmptyApp).2.1 (by decide)).1,
   ((claim_C1_commit gmExApp smEmptyApp).2.1 (by decide)).2,
   (claim_C1_commit gmExApp smEmptyApp).2.2.1 (by decide)⟩

/-- Claim C2: in both variants, a confirmed and successful export-to-table
with samples S1..Sk and a non-empty grid writes exactly k+1 comma-separated
integer lines, S1..Sk first and the flattened current state (with the same
flatten+label logic as commit) last; and when the sample store is empty
after the implicit-commit step (no stored samples and an all-zero grid),
the operation only warns and performs no file write. -/
theorem claim_C2_export_table :
    ∀ (a : GridMaker.AppState) (fname : String)
      (b : SymbolsMaker.AppState) (fname2 : String),
      (GridMaker.stateAny a.state = true → fname.isEmpty = false →
        GridMaker.save_all a fname true =
          ({ state := a.state, samples := [] },
           SaveOutcome.saved (a.samples ++ [GridMaker.flatten a.state])) ∧
        (csvLines (a.samples ++ [GridMaker.flatten a.state])).length =
          a.samples.length + 1) ∧
      (a.samples = [] → GridMaker.stateAny a.state = false →
        ∀ writeOk, GridMaker.save_all a fname writeOk = (a, SaveOutcome.warned)) ∧
      (SymbolsMaker.stateAny b.state = true → fname2.isEmpty = false →
        SymbolsMaker.save_all b fname2 true =
          (SymbolsMaker.committed b,
           SaveOutcome.saved (b.samples ++ [SymbolsMaker.flattenL b])) ∧
        (csvLines (b.samples ++ [SymbolsMaker.flattenL b])).length =
          b.samples.length + 1) ∧
      (b.samples = [] → SymbolsMaker.stateAny b.state = false →
        ∀ writeOk,
          SymbolsMaker.save_all b fname2 writeOk = (b, SaveOutcome.warned)) := by
  intro a fname b fname2
  refine ⟨fun h hf => ?_, fun h1 h2 writeOk => ?_, fun h hf => ?_, fun h1 h2 writeOk => ?_⟩
  · have hw : (a.samples.isEmpty && !(GridMaker.stateAny a.state)) = false := by
      simp [h]
    constructor
    · rw [GridMaker.save_all_success a fname hw hf, GridMaker.committed_samples a, h]
      simp
    · simp [csvLines_length]
  · exact GridMaker.save_all_warned a fname writeOk (by simp [h1, h2])
  · have hw : (SymbolsMaker.committed b).samples.isEmpty = false := by
      simp [SymbolsMaker.committed_samples5, h]
    constructor
    · rw [SymbolsMaker.save_all_success5 b fname2 hw hf,
        SymbolsMaker.committed_samples5 b, h]
      simp
    · simp [csvLines_length]
  · have hb : SymbolsMaker.committed b = b := SymbolsMaker.committed_of_empty5 b h2
    have hw : (SymbolsMaker.committed b).samples.isEmpty = true := by
      rw [hb, h1]
      rfl
    rw [SymbolsMaker.save_all_warned5 b fname2 writeOk hw, hb]

/-- Witness for C2: the one-cell example states export to exactly one line
(their own flattening), and the all-zero, no-sample states only warn. -/
theorem claim_C2_export_table_witness :
    (GridMaker.save_all gmExApp fnameEx true =
      ({ state := gmExApp.state, samples := [] },
       SaveOutcome.saved (gmExApp.samples ++ [GridMaker.flatten gmExApp.state]))) ∧
    GridMaker.save_all gmEmptyApp fnameEx true = (gmEmptyApp, SaveOutcome.warned) ∧
    (SymbolsMaker.save_all smExApp fnameEx true =
      (SymbolsMaker.committed smExApp,
       SaveOutcome.saved (smExApp.samples ++ [SymbolsMaker.flattenL smExApp]))) ∧
    SymbolsMaker.save_all smEmptyApp fnameEx true = (smEmptyApp, SaveOutcome.warned) :=
  ⟨((claim_C2_export_table gmExApp fnameEx smExApp fnameEx).1 (by decide) (by decide)).1,
   (claim_C2_export_table gmEmptyApp fnameEx smEmptyApp fnameEx).2.1 rfl (by decide) true,
   ((claim_C2_export_table gmExApp fnameEx smExApp fnameEx).2.2.1 (by decide) (by decide)).1,
   (claim_C2_export_table gmEmptyApp fnameEx smEmptyApp fnameEx).2.2.2 rfl (by decide) true⟩

/-- Claim C6: in both variants, with a non-empty grid the flattened current
drawing is appended to the sample store before the path dialog; cancelling
the dialog writes no file, yet the store has grown by that one sample and
the grid is still non-empty — cancelling is not a no-op on in-memory state. -/
theorem claim_C6_cancel_grows_store :
    ∀ (a : GridMaker.AppState) (fname : String) (writeOk : Bool)
      (b : SymbolsMaker.AppState) (fname2 : String) (writeOk2 : Bool),
      GridMaker.stateAny a.state = true → fname.isEmpty = true →
      SymbolsMaker.stateAny b.state = true → fname2.isEmpty = true →
      GridMaker.save_all a fname writeOk =
        ({ a with samples := a.samples ++ [GridMaker.flatten a.state] },
         SaveOutcome.cancelled) ∧
      GridMaker.stateAny (GridMaker.save_all a fname writeOk).1.state = true ∧
      SymbolsMaker.save_all b fname2 writeOk2 =
        ({ b with samples := b.samples ++ [SymbolsMaker.flattenL b] },
         SaveOutcome.cancelled) ∧
      SymbolsMaker.stateAny (SymbolsMaker.save_all b fname2 writeOk2).1.state = true := by
  intro a fname writeOk b fname2 writeOk2 h hf h2 hf2
  have hw : (a.samples.isEmpty && !(GridMaker.stateAny a.state)) = false := by simp [h]
  have hw2 : (SymbolsMaker.committed b).samples.isEmpty = false := by
    simp [SymbolsMaker.committed_samples5, h2]
  have e1 := GridMaker.save_all_cancelled a fname writeOk hw hf
  have e2 := SymbolsMaker.save_all_cancelled5 b fname2 writeOk2 hw2 hf2
  refine ⟨?_, ?_, ?_, ?_⟩
  · rw [e1, GridMaker.committed_of_nonempty a h]
  · rw [e1]
    simpa [GridMaker.committed_state] using h
  · rw [e2, SymbolsMaker.committed_of_nonempty5 b h2]
  · rw [e2]
    simpa [SymbolsMaker.committed_state5] using h2

/-- Witness for C6: cancelling the dialog on the one-cell example states
leaves the grown store and the unchanged non-empty grid. -/
theorem claim_C6_cancel_grows_store_witness :
    GridMaker.save_all gmExApp fnameCancelled true =
      ({ gmExApp with samples := gmExApp.samples ++ [GridMaker.flatten gmExApp.state] },
       SaveOutcome.cancelled) ∧
    GridMaker.stateAny (GridMaker.save_all gmExApp fnameCancelled true).1.state = true ∧
    SymbolsMaker.save_all smExApp fnameCancelled true =
      ({ smExApp with samples := smExApp.samples ++ [SymbolsMaker.flattenL smExApp] },
       SaveOutcome.cancelled) ∧
    SymbolsMaker.stateAny (SymbolsMaker.save_all smExApp fnameCancelled true).1.state = true :=
  claim_C6_cancel_grows_store gmExApp fnameCancelled true smExApp fnameCancelled true
    (by decide) (by decide) (by decide) (by decide)

/-- Claim C10: after a successful export-to-table write, the 8 × 8 variant
clears the sample store to empty, while the 5 × 5 labeled variant leaves the
store intact with exactly the samples it contained at write time (the rows
just written). -/
theorem claim_C10_clear_policy :
    ∀ (a : GridMaker.AppState) (fname : String)
      (b : SymbolsMaker.AppState) (fname2 : String),
      ((a.samples.isEmpty && !(GridMaker.stateAny a.state)) = false →
        fname.isEmpty = false →
        (GridMaker.save_all a fname true).1.samples = [] ∧
        (GridMaker.save_all a fname true).2 =
          SaveOutcome.saved (GridMaker.committed a).samples) ∧
      ((SymbolsMaker.committed b).samples.isEmpty = false →
        fname2.isEmpty = false →
        (SymbolsMaker.save_all b fname2 true).1.samples =
          (SymbolsMaker.committed b).samples ∧
        (SymbolsMaker.save_all b fname2 true).2 =
          SaveOutcome.saved (SymbolsMaker.committed b).samples) := by
  intro a fname b fname2
  refine ⟨fun hw hf => ?_, fun hw2 hf2 => ?_⟩
  · rw [GridMaker.save_all_success a fname hw hf]
    exact ⟨rfl, rfl⟩
  · rw [SymbolsMaker.save_all_success5 b fname2 hw2 hf2]
    exact ⟨rfl, rfl⟩

/-- Witness for C10 on the one-cell example states: the 8 × 8 store is
cleared, the 5 × 5 store keeps the written rows. -/
theorem claim_C10_clear_policy_witness :
    ((GridMaker.save_all gmExApp fnameEx true).1.samples = [] ∧
      (GridMaker.save_all gmExApp fnameEx true).2 =
        SaveOutcome.saved (GridMaker.committed gmExApp).samples) ∧
    ((SymbolsMaker.save_all smExApp fnameEx true).1.samples =
        (SymbolsMaker.committed smExApp).samples ∧
      (SymbolsMaker.save_all smExApp fnameEx true).2 =
        SaveOutcome.saved (SymbolsMaker.committed smExApp).samples) :=
  ⟨(claim_C10_clear_policy gmExApp fnameEx smExApp fnameEx).1 (by decide) (by decide),
   (claim_C10_clear_policy gmExApp fnameEx smExApp fnameEx).2 (by decide) (by decide)⟩

/-- Counterexample to C3 as stated: on the one-cell example state with no
stored samples, a failed file write leaves a sample store that differs from
the pre-invocation store — the implicitly committed current drawing was
already appended, so in-memory state is not identical to what it was
immediately before the operation was invoked. -/
theorem claim_C3_counterexample :
    (GridMaker.save_all gmExApp fnameEx false).2 = SaveOutcome.failed ∧
    (GridMaker.save_all gmExApp fnameEx false).1.samples ≠ gmExApp.samples := by
  exact ⟨by decide, by decide⟩

/-- Claim C3 (amended): on a failed file write the operation surfaces the
failure (the 8 × 8 variant reports it, the 5 × 5 variant has no try/except)
and the sample store is not cleared — it holds the pre-invocation samples
plus the one implicitly-committed sample when the grid was non-empty — while
the Grid State and Label are unchanged. -/
theorem claim_C3_failed_write :
    ∀ (a : GridMaker.AppState) (fname : String)
      (b : SymbolsMaker.AppState) (fname2 : String),
      ((a.samples.isEmpty && !(GridMaker.stateAny a.state)) = false →
        fname.isEmpty = false →
        (GridMaker.save_all a fname false).1.state = a.state ∧
        (GridMaker.save_all a fname false).1.samples =
          a.samples ++
            (if GridMaker.stateAny a.state then [GridMaker.flatten a.state] else []) ∧
        (GridMaker.save_all a fname false).2 = SaveOutcome.failed) ∧
      ((SymbolsMaker.committed b).samples.isEmpty = false →
        fname2.isEmpty = false →
        (SymbolsMaker.save_all b fname2 false).1.state = b.state ∧
        (SymbolsMaker.save_all b fname2 false).1.label = b.label ∧
        (SymbolsMaker.save_all b fname2 false).1.samples =
          b.samples ++
            (if SymbolsMaker.stateAny b.state then [SymbolsMaker.flattenL b] else []) ∧
        (SymbolsMaker.save_all b fname2 false).2 = SaveOutcome.failed) := by
  intro a fname b fname2
  refine ⟨fun hw hf => ?_, fun hw2 hf2 => ?_⟩
  · rw [GridMaker.save_all_failed a fname hw hf]
    exact ⟨GridMaker.committed_state a, GridMaker.committed_samples a, rfl⟩
  · rw [SymbolsMaker.save_all_failed5 b fname2 hw2 hf2]
    exact ⟨SymbolsMaker.committed_state5 b, SymbolsMaker.committed_label b,
      SymbolsMaker.committed_samples5 b, rfl⟩

/-- Witness for the amended C3 on the one-cell example states. -/
theorem claim_C3_failed_write_witness :
    ((GridMaker.save_all gmExApp fnameEx false).1.state = gmExApp.state ∧
      (GridMaker.save_all gmExApp fnameEx false).1.samples =
        gmExApp.samples ++
          (if GridMaker.stateAny gmExApp.state
           then [GridMaker.flatten gmExApp.state] else []) ∧
      (GridMaker.save_all gmExApp fnameEx false).2 = SaveOutcome.failed) ∧
    ((SymbolsMaker.save_all smExApp fnameEx false).1.state = smExApp.state ∧
      (SymbolsMaker.save_all smExApp fnameEx false).1.label = smExApp.label ∧
      (SymbolsMaker.save_all smExApp fnameEx false).1.samples =
        smExApp.samples ++
          (if SymbolsMaker.stateAny smExApp.state
           then [SymbolsMaker.flattenL smExApp] else []) ∧
      (SymbolsMaker.save_all smExApp fnameEx false).2 = SaveOutcome.failed) :=
  ⟨(claim_C3_failed_write gmExApp fnameEx smExApp fnameEx).1 (by decide) (by decide),
   (claim_C3_failed_write gmExApp fnameEx smExApp fnameEx).2 (by decide) (by decide)⟩

/-- Claim C9: in both variants, a pointer event whose coordinates floor-divide
by the cell size to a row or column outside [0, N) leaves the grid completely
unchanged under the toggle, paint and erase handlers (the handlers are total,
so no error is raised). -/
theorem claim_C9_out_of_bounds_ignored :
    ∀ (s : GridMaker.State) (x y : Int) (t : SymbolsMaker.State) (x2 y2 : Int),
      (y.fdiv 50 < 0 ∨ 8 ≤ y.fdiv 50 ∨ x.fdiv 50 < 0 ∨ 8 ≤ x.fdiv 50) →
      (y2.fdiv 50 < 0 ∨ 5 ≤ y2.fdiv 50 ∨ x2.fdiv 50 < 0 ∨ 5 ≤ x2.fdiv 50) →
      (GridMaker.toggle_cell s x y = s ∧ GridMaker.paint_motion s x y = s ∧
        GridMaker.erase_cell s x y = s ∧ GridMaker.erase_motion s x y = s) ∧
      (SymbolsMaker.toggle_cell t x2 y2 = t ∧ SymbolsMaker.paint_motion t x2 y2 = t ∧
        SymbolsMaker.erase_cell t x2 y2 = t ∧ SymbolsMaker.erase_motion t x2 y2 = t) :=
  fun s x y t x2 y2 h h2 =>
    ⟨GridMaker.handlers_noop s x y (GridMaker.coords_none x y h),
     SymbolsMaker.handlers_noop5 t x2 y2 (SymbolsMaker.coords_none5 x2 y2 h2)⟩

/-- Witness for C9: pixel (1000, 0) is right of the 8 × 8 canvas and
pixel (-1, 30) is left of the 5 × 5 canvas; each event is a no-op. -/
theorem claim_C9_out_of_bounds_ignored_witness :
    (GridMaker.toggle_cell gmExState 1000 0 = gmExState ∧
      GridMaker.paint_motion gmExState 1000 0 = gmExState ∧
      GridMaker.erase_cell gmExState 1000 0 = gmExState ∧
      GridMaker.erase_motion gmExState 1000 0 = gmExState) ∧
    (SymbolsMaker.toggle_cell smExState (-1) 30 = smExState ∧
      SymbolsMaker.paint_motion smExState (-1) 30 = smExState ∧
      SymbolsMaker.erase_cell smExState (-1) 30 = smExState ∧
      SymbolsMaker.erase_motion smExState (-1) 30 = smExState) :=
  claim_C9_out_of_bounds_ignored gmExState 1000 0 smExState (-1) 30
    (by decide) (by decide)

/-- Claim C8: in both variants, over binary grid states, a primary-button
drag (paint) never decreases any cell — it forces the addressed cell to 1
and leaves all others unchanged — and a secondary-button click or drag
(erase) never increases any cell — it forces the addressed cell to 0 and
leaves all others unchanged; both are idempotent. -/
theorem claim_C8_paint_erase :
    ∀ (s : GridMaker.State) (x y : Int) (t : SymbolsMaker.State) (x2 y2 : Int),
      GridMaker.Inv s → SymbolsMaker.Inv t →
      ((∀ p q, s p q ≤ GridMaker.paint_motion s x y p q) ∧
        (∀ r c, GridMaker.coords_to_cell x y = some (r, c) →
          GridMaker.paint_motion s x y r c = 1 ∧
          ∀ p q, ¬(p = r ∧ q = c) → GridMaker.paint_motion s x y p q = s p q) ∧
        GridMaker.paint_motion (GridMaker.paint_motion s x y) x y =
          GridMaker.paint_motion s x y ∧
        (∀ p q, GridMaker.erase_cell s x y p q ≤ s p q) ∧
        (∀ r c, GridMaker.coords_to_cell x y = some (r, c) →
          GridMaker.erase_cell s x y r c = 0 ∧
          ∀ p q, ¬(p = r ∧ q = c) → GridMaker.erase_cell s x y p q = s p q) ∧
        GridMaker.erase_cell (GridMaker.erase_cell s x y) x y =
          GridMaker.erase_cell s x y ∧
        GridMaker.erase_motion s x y = GridMaker.erase_cell s x y) ∧
      ((∀ p q, t p q ≤ SymbolsMaker.paint_motion t x2 y2 p q) ∧
        (∀ r c, SymbolsMaker.coords_to_cell x2 y2 = some (r, c) →
          SymbolsMaker.paint_motion t x2 y2 r c = 1 ∧
          ∀ p q, ¬(p = r ∧ q = c) → SymbolsMaker.paint_motion t x2 y2 p q = t p q) ∧
        SymbolsMaker.paint_motion (SymbolsMaker.paint_motion t x2 y2) x2 y2 =
          SymbolsMaker.paint_motion t x2 y2 ∧
        (∀ p q, SymbolsMaker.erase_cell t x2 y2 p q ≤ t p q) ∧
        (∀ r c, SymbolsMaker.coords_to_cell x2 y2 = some (r, c) →
          SymbolsMaker.erase_cell t x2 y2 r c = 0 ∧
          ∀ p q, ¬(p = r ∧ q = c) → SymbolsMaker.erase_cell t x2 y2 p q = t p q) ∧
        SymbolsMaker.erase_cell (SymbolsMaker.erase_cell t x2 y2) x2 y2 =
          SymbolsMaker.erase_cell t x2 y2 ∧
        SymbolsMaker.erase_motion t x2 y2 = SymbolsMaker.erase_cell t x2 y2) :=
  fun s x y t x2 y2 hInv hInv2 =>
    ⟨⟨GridMaker.paint_mono s x y,
      fun r c h => GridMaker.paint_forces s x y r c hInv h,
      GridMaker.paint_idem s x y,
      GridMaker.erase_antitone s x y,
      fun r c h => GridMaker.erase_forces s x y r c h,
      GridMaker.erase_idem s x y,
      GridMaker.erase_motion_eq s x y⟩,
     ⟨SymbolsMaker.paint_mono5 t x2 y2 hInv2,
      fun r c h => SymbolsMaker.paint_forces5 t x2 y2 r c h,
      SymbolsMaker.paint_idem5 t x2 y2,
      SymbolsMaker.erase_antitone5 t x2 y2 hInv2,
      fun r c h => SymbolsMaker.erase_forces5 t x2 y2 r c h,
      SymbolsMaker.erase_idem5 t x2 y2,
      SymbolsMaker.erase_motion_eq5 t x2 y2⟩⟩

/-- Witness for C8 at pixel (60, 10), which addresses cell (0, 1) in both
variants, on the binary example states. -/
theorem claim_C8_paint_erase_witness :
    gmExState 0 0 ≤ GridMaker.paint_motion gmExState 60 10 0 0 ∧
    GridMaker.paint_motion gmExState 60 10 0 1 = 1 ∧
    GridMaker.erase_cell gmExState 60 10 0 1 = 0 ∧
    GridMaker.paint_motion (GridMaker.paint_motion gmExState 60 10) 60 10 =
      GridMaker.paint_motion gmExState 60 10 ∧
    smExState 4 4 ≤ SymbolsMaker.paint_motion smExState 60 10 4 4 ∧
    SymbolsMaker.paint_motion smExState 60 10 0 1 = 1 ∧
    SymbolsMaker.erase_cell smExState 60 10 0 1 = 0 := by
  have H := claim_C8_paint_erase gmExState 60 10 smExState 60 10 (by decide) (by decide)
  exact ⟨H.1.1 0 0,
    (H.1.2.1 0 1 (by decide)).1,
    (H.1.2.2.2.2.1 0 1 (by decide)).1,
    H.1.2.2.1,
    H.2.1 4 4,
    (H.2.2.1 0 1 (by decide)).1,
    (H.2.2.2.2.2.1 0 1 (by decide)).1⟩

/-- Counterexample to C4 as stated: the 8 × 8 variant builds its raster from
the state array directly, with no resize, so on the example grid the image
height is the grid side (8) and not grid side × cell-pixel-size (8 × 50). -/
theorem claim_C4_counterexample :
    (GridMaker.pngImage gmExState).height ≠
      GridMaker.GRID_SIZE * GridMaker.CELL_SIZE := by
  decide

/-- Claim C4 (amended): export-to-image is a single-channel raster whose
pixels take exactly the two values 0 and 255, with the 1-cells mapped to one
value and the 0-cells to the other; the 5 × 5 labeled variant (for non-empty
grids) scales each cell to a cell-size pixel block with nearest-neighbor
(1 ↦ 255, 0 ↦ 0, dimensions grid side × cell-pixel-size), while the 8 × 8
variant writes one pixel per cell with no scaling (1 ↦ 0, 0 ↦ 255,
dimensions grid side × grid side). -/
theorem claim_C4_export_image :
    ∀ (s : GridMaker.State) (t : SymbolsMaker.State),
      GridMaker.Inv s → SymbolsMaker.Inv t →
      ((GridMaker.pngImage s).height = 8 ∧
        (GridMaker.pngImage s).width = 8 ∧
        ∀ r c : Fin 8, (GridMaker.pngImage s).pix r.val c.val =
          if s r c = 1 then 0 else 255) ∧
      (SymbolsMaker.stateAny t = true →
        SymbolsMaker.save_png_current t = some (SymbolsMaker.pngImage t)) ∧
      (SymbolsMaker.pngImage t).height = 5 * 50 ∧
      (SymbolsMaker.pngImage t).width = 5 * 50 ∧
      (∀ y x : Nat, y < 250 → x < 250 →
        (SymbolsMaker.pngImage t).pix y x =
          if SymbolsMaker.getCell t (y / 50) (x / 50) = 1 then 255 else 0) :=
  fun s t hInv hInv2 =>
    ⟨GridMaker.pngImage_spec s hInv,
     fun h => SymbolsMaker.save_png_nonempty t h,
     (SymbolsMaker.pngImage_spec5 t hInv2).1,
     (SymbolsMaker.pngImage_spec5 t hInv2).2.1,
     (SymbolsMaker.pngImage_spec5 t hInv2).2.2⟩

/-- Witness for the amended C4 on the binary example states, including the
corner pixels of both rasters. -/
theorem claim_C4_export_image_witness :
    (GridMaker.pngImage gmExState).height = 8 ∧
    (GridMaker.pngImage gmExState).pix (0 : Fin 8).val (0 : Fin 8).val =
      (if gmExState 0 0 = 1 then 0 else 255) ∧
    SymbolsMaker.save_png_current smExState = some (SymbolsMaker.pngImage smExState) ∧
    (SymbolsMaker.pngImage smExState).pix 249 249 =
      (if SymbolsMaker.getCell smExState (249 / 50) (249 / 50) = 1 then 255 else 0) := by
  have H := claim_C4_export_image gmExState smExState (by decide) (by decide)
  exact ⟨H.1.1, H.1.2.2 0 0, H.2.1 (by decide), H.2.2.2.2 249 249 (by decide) (by decide)⟩
